import Mathlib

/-!
Verification development for the clinic-scheduling assistant repository.

The embedding follows the source files:
  * `helpers/helper_functions.py`  — `parse_datetime_param`, `parse_date_range_param`
  * `app.py` (dialogflow web version) — the `chat` request handler
  * `services/booking_handler.py`  — `book_appointment`, `cancel_appointment_flow`,
    `validate_slot`
  * `services/session_manager.py`  — `get_session` / `update_session` / `clear_session`

Python `datetime` values are modelled as records of wall-clock fields plus an
optional UTC-offset in minutes (`tz`).  The clinic timezone (`Africa/Cairo`,
which the specification treats as the clinic's fixed local timezone) is
modelled as the fixed offset +120 minutes; `pytz.localize` on a naive value
attaches this offset and raises (here: returns `none`) on an aware value.
`datetime.fromisoformat` is modelled on the sub-language actually exchanged
with the NLU layer: `YYYY-MM-DD`, optionally followed by a `T`/space
separator and `HH:MM[:SS]`, optionally followed by a UTC offset
`+HH:MM` / `-HH:MM` / `Z` (no fractional seconds).
-/

namespace LyRise

/-- One wall-clock reading with an optional UTC offset in minutes
(`tz = none` models a naive Python `datetime`). -/
structure PDT where
  year : Nat
  month : Nat
  day : Nat
  hour : Nat
  minute : Nat
  second : Nat
  tz : Option Int
deriving DecidableEq, Repr

/-- The duck-typed `date-time` parameter shapes arriving from the NLU layer:
a plain string, a string-valued dict, or any other (non-str, non-dict) value. -/
inductive DTParam where
  | str (s : String)
  | dict (entries : List (String × String))
  | other
deriving DecidableEq, Repr

/-- First value stored under a key (Python dict lookup). -/
def lookupKey (l : List (String × String)) (k : String) : Option String :=
  match l with
  | [] => none
  | (k', v) :: rest => if k' = k then some v else lookupKey rest k

/-- Python truthiness of a `date-time` parameter value: empty string and empty
dict are falsy; other (non-str, non-dict) values are modelled as truthy. -/
def dtTruthy : DTParam → Bool
  | .str s => !s.isEmpty
  | .dict l => !l.isEmpty
  | .other => true

/-- Truthiness of `parameters.get('date-time')` (absent key gives `None`). -/
def dtTruthyOpt : Option DTParam → Bool
  | none => false
  | some p => dtTruthy p

/-- Gregorian leap year. -/
def isLeap (y : Nat) : Bool :=
  (y % 4 = 0 && y % 100 ≠ 0) || y % 400 = 0

/-- Days in a month (as validated by `datetime.fromisoformat`). -/
def daysInMonth (y m : Nat) : Nat :=
  if m = 2 then (if isLeap y then 29 else 28)
  else if m = 4 ∨ m = 6 ∨ m = 9 ∨ m = 11 then 30
  else 31

/-- The calendar day after `(y, m, d)`. -/
def nextDate (y m d : Nat) : Nat × Nat × Nat :=
  if d < daysInMonth y m then (y, m, d + 1)
  else if m < 12 then (y, m + 1, 1)
  else (y + 1, 1, 1)

/-- The calendar day before `(y, m, d)`. -/
def prevDate (y m d : Nat) : Nat × Nat × Nat :=
  if 1 < d then (y, m, d - 1)
  else if 1 < m then (y, m - 1, daysInMonth y (m - 1))
  else (y - 1, 12, 31)

/-- `dt + timedelta(days=1)` on a pytz-aware or naive value: wall-clock
calendar successor, offset left untouched (pytz arithmetic does not
renormalize the offset). -/
def addOneDay (p : PDT) : PDT :=
  let (y, m, d) := nextDate p.year p.month p.day
  { p with year := y, month := m, day := d }

/-- `dt - timedelta(days=1)`: wall-clock calendar predecessor. -/
def subOneDay (p : PDT) : PDT :=
  let (y, m, d) := prevDate p.year p.month p.day
  { p with year := y, month := m, day := d }

/-- `dt.replace(hour=0, minute=0, second=0, microsecond=0)`. -/
def midnightOf (p : PDT) : PDT :=
  { p with hour := 0, minute := 0, second := 0 }

/-- `dt.replace(tzinfo=None)`. -/
def dropTz (p : PDT) : PDT :=
  { p with tz := none }

/-- Offset attached by `pytz.timezone('Africa/Cairo')`, modelled as the
clinic's fixed local offset (+02:00) in minutes. -/
def cairoOffsetMin : Int := 120

/-- `LOCAL_TIMEZONE.localize(dt)`: attaches the clinic offset to a naive
value; raises `ValueError` (modelled as `none`) on an aware value. -/
def localize (p : PDT) : Option PDT :=
  match p.tz with
  | some _ => none
  | none => some { p with tz := some cairoOffsetMin }

/-- Calendar-day triple of a datetime (`dt.date()` reads wall-clock fields). -/
def dateOf (p : PDT) : Nat × Nat × Nat :=
  (p.year, p.month, p.day)

/-! ### `datetime.fromisoformat`, on the modelled ISO sub-language -/

/-- Decimal value of a digit character, `none` on a non-digit. -/
def d1 (c : Char) : Option Nat :=
  if c.isDigit then some (c.toNat - 48) else none

/-- Parse exactly two digits. -/
def parse2 : List Char → Option (Nat × List Char)
  | a :: b :: rest =>
    match d1 a, d1 b with
    | some x, some y => some (10 * x + y, rest)
    | _, _ => none
  | _ => none

/-- Parse exactly four digits. -/
def parse4 (cs : List Char) : Option (Nat × List Char) :=
  match parse2 cs with
  | none => none
  | some (hi, r) =>
    match parse2 r with
    | none => none
    | some (lo, r') => some (100 * hi + lo, r')

/-- Consume one expected character. -/
def expectCh (c : Char) : List Char → Option (List Char)
  | x :: r => if x = c then some r else none
  | [] => none

/-- Parse a UTC offset suffix: empty, `Z`/`z`, or `±HH:MM`. -/
def parseOffset : List Char → Option (Option Int)
  | [] => some none
  | ['Z'] => some (some 0)
  | ['z'] => some (some 0)
  | '+' :: r =>
    (match parse2 r with
     | none => none
     | some (h, r1) =>
       match expectCh ':' r1 with
       | none => none
       | some r2 =>
         match parse2 r2 with
         | some (m, []) =>
           if h < 24 ∧ m < 60 then some (some ((h * 60 + m : Nat) : Int)) else none
         | _ => none)
  | '-' :: r =>
    (match parse2 r with
     | none => none
     | some (h, r1) =>
       match expectCh ':' r1 with
       | none => none
       | some r2 =>
         match parse2 r2 with
         | some (m, []) =>
           if h < 24 ∧ m < 60 then some (some (-((h * 60 + m : Nat) : Int))) else none
         | _ => none)
  | _ => none

/-- Parse `HH:MM[:SS]` followed by an optional offset. -/
def parseTimePart (cs : List Char) : Option (Nat × Nat × Nat × Option Int) :=
  match parse2 cs with
  | none => none
  | some (h, r1) =>
    match expectCh ':' r1 with
    | none => none
    | some r2 =>
      match parse2 r2 with
      | none => none
      | some (mi, r3) =>
        match r3 with
        | ':' :: r4 =>
          (match parse2 r4 with
           | none => none
           | some (s, r5) =>
             match parseOffset r5 with
             | none => none
             | some tz => some (h, mi, s, tz))
        | _ =>
          match parseOffset r3 with
          | none => none
          | some tz => some (h, mi, 0, tz)

/-- Field validation performed by `datetime.fromisoformat`. -/
def validDT (y mo dy h mi s : Nat) : Bool :=
  1 ≤ y && y ≤ 9999 && 1 ≤ mo && mo ≤ 12 && 1 ≤ dy && dy ≤ daysInMonth y mo &&
    h < 24 && mi < 60 && s < 60

/-- `datetime.fromisoformat` on a character list. -/
def fromisoChars (cs : List Char) : Option PDT :=
  match parse4 cs with
  | none => none
  | some (y, r1) =>
    match expectCh '-' r1 with
    | none => none
    | some r2 =>
      match parse2 r2 with
      | none => none
      | some (mo, r3) =>
        match expectCh '-' r3 with
        | none => none
        | some r4 =>
          match parse2 r4 with
          | none => none
          | some (dy, r5) =>
            match r5 with
            | [] =>
              if validDT y mo dy 0 0 0 then some ⟨y, mo, dy, 0, 0, 0, none⟩ else none
            | sep :: r6 =>
              if sep = 'T' ∨ sep = ' ' then
                match parseTimePart r6 with
                | none => none
                | some (h, mi, s, tz) =>
                  if validDT y mo dy h mi s then some ⟨y, mo, dy, h, mi, s, tz⟩ else none
              else none

/-- `datetime.fromisoformat` on a string. -/
def fromisoformat (s : String) : Option PDT :=
  fromisoChars s.data

/-! ### `parse_datetime_param` and `parse_date_range_param` -/

/-- `date_param.split("+")[0]`: the prefix before the first `+`. -/
def stripPlus (s : String) : String :=
  ⟨s.data.takeWhile (fun c => c ≠ '+')⟩

/-- `date_param.replace("Z", "")`: removes every `Z`. -/
def removeZ (s : String) : String :=
  ⟨s.data.filter (fun c => c ≠ 'Z')⟩

/-- `parse_datetime_param` from `helpers/helper_functions.py`: parses the
duck-typed `date-time` parameter into a datetime, keeping the wall-clock
reading unchanged; every failure (unrecognized shape, unparsable string) is
caught and returned as `none`. -/
def parse_datetime_param (p : DTParam) : Option PDT :=
  match p with
  | .str s => fromisoformat (removeZ (stripPlus s))
  | .dict l =>
    match lookupKey l "date_time" with
    | some v => fromisoformat (removeZ (stripPlus v))
    | none =>
      match lookupKey l "startDate" with
      | some v => fromisoformat (stripPlus v)
      | none =>
        match lookupKey l "date", lookupKey l "time" with
        | some d, some t => fromisoformat (d ++ "T" ++ t)
        | _, _ => none
  | .other => none

/-- `parse_date_range_param` from `helpers/helper_functions.py`.  The Python
function initialises `start_dt = end_dt = None`, assigns them inside a
`try`, and returns whatever has been assigned when an exception interrupts
the block. -/
def parse_date_range_param (p : DTParam) : Option PDT × Option PDT :=
  match p with
  | .str s =>
    (match fromisoformat s with
     | none => (none, none)
     | some d =>
       match localize (midnightOf d) with
       | none => (none, none)
       | some st => (some st, some (addOneDay st)))
  | .dict l =>
    (match lookupKey l "startDate" with
     | none => (none, none)
     | some sv =>
       match fromisoformat sv with
       | none => (none, none)
       | some ps =>
         match lookupKey l "endDate" with
         | none => (none, none)
         | some ev =>
           match fromisoformat ev with
           | none => (none, none)
           | some pe =>
             match localize (midnightOf ps) with
             | none => (none, none)
             | some st =>
               match localize (midnightOf pe) with
               | none => (some st, none)
               | some en =>
                 if dateOf st = dateOf en then (some st, some (addOneDay en))
                 else (some st, some en))
  | .other => (none, none)

/-! ### Day arithmetic and `strftime` fragments used by the chat handler -/

/-- Days since 1970-01-01 (civil-from-days algorithm), used for
`timedelta.days` of a datetime difference. -/
def daysFromCivil (y m d : Nat) : Int :=
  let yi : Int := (y : Int) - (if m ≤ 2 then 1 else 0)
  let era : Int := yi.fdiv 400
  let yoe : Int := yi - era * 400
  let mp : Int := ((m : Int) + 9) % 12
  let doy : Int := (153 * mp + 2).fdiv 5 + (d : Int) - 1
  let doe : Int := yoe * 365 + yoe.fdiv 4 - yoe.fdiv 100 + doy
  era * 146097 + doe - 719468

/-- Instant of a datetime in seconds since the epoch (naive values count as
offset 0, matching how equal-offset values compare by wall clock). -/
def utcSecs (p : PDT) : Int :=
  86400 * daysFromCivil p.year p.month p.day +
    3600 * (p.hour : Int) + 60 * (p.minute : Int) + (p.second : Int) -
    60 * (p.tz.getD 0)

/-- `(end_dt - start_dt).days` (Python `timedelta` floors toward -∞). -/
def diffDays (en st : PDT) : Int :=
  (utcSecs en - utcSecs st).fdiv 86400

/-- Zero-padded two-digit rendering (`%d`, `%I`, `%M`). -/
def pad2s (n : Nat) : String :=
  if n < 10 then "0" ++ toString n else toString n

/-- `%B`: full month name. -/
def monthName : Nat → String
  | 1 => "January"
  | 2 => "February"
  | 3 => "March"
  | 4 => "April"
  | 5 => "May"
  | 6 => "June"
  | 7 => "July"
  | 8 => "August"
  | 9 => "September"
  | 10 => "October"
  | 11 => "November"
  | 12 => "December"
  | _ => ""

/-- `strftime('%I:%M %p')`. -/
def fmtIM (p : PDT) : String :=
  let h12 := if p.hour % 12 = 0 then 12 else p.hour % 12
  pad2s h12 ++ ":" ++ pad2s p.minute ++ " " ++ (if p.hour < 12 then "AM" else "PM")

/-- `strftime('%B %d')`. -/
def fmtBd (p : PDT) : String :=
  monthName p.month ++ " " ++ pad2s p.day

/-- `strftime('%I:%M %p on %B %d')`. -/
def fmtIMonBd (p : PDT) : String :=
  fmtIM p ++ " on " ++ fmtBd p

/-! ### Session store and the `chat` handler (`app.py`, dialogflow web version)

`get_session` lazily creates an empty dict, `update_session` writes one key
into the stored dict, and `clear_session` deletes the map entry
(`services/session_manager.py`).  Because `chat` grabs `session =
get_session(session_id)` once at the top, a `clear_session` during the turn
detaches that local reference: later `session.get(...)` reads see the old
dict's contents while `update_session` writes go to a freshly created dict.
`TurnSt` models this: `store` is the map entry, `view` is what the local
`session` reference reads, and `attached` records whether they are still the
same object. -/

/-- One conversation session: the context bag stored per session id.
Absent keys and keys explicitly set to `None` both appear as `none`
(`session.get` does not distinguish them); the flow flags are only ever set
to `True`, so they are modelled as `Bool`. -/
structure Sess where
  awaiting_info : Option String := none
  schedule_doctor : Option String := none
  doctor : Option String := none
  datetime : Option DTParam := none
  cancel_doctor : Option String := none
  cancel_datetime : Option DTParam := none
  booking_flow : Bool := false
  cancel_flow : Bool := false
deriving DecidableEq, Repr

/-- In-turn state of the sessions map entry plus the local `session` alias. -/
structure TurnSt where
  store : Option Sess
  view : Sess
  attached : Bool

/-- `session = get_session(session_id)`: creates the empty context if absent;
the local reference starts out aliasing the stored dict. -/
def mkTurn (store0 : Option Sess) : TurnSt :=
  let s := store0.getD {}
  ⟨some s, s, true⟩

/-- `update_session(session_id, key, value)`: writes through `get_session`
into the stored dict; the local alias sees the write only while attached. -/
def updateS (t : TurnSt) (f : Sess → Sess) : TurnSt :=
  let live := f (t.store.getD {})
  ⟨some live, if t.attached then live else t.view, t.attached⟩

/-- `clear_session(session_id)`: deletes the map entry; the local reference
keeps the old dict's contents and is detached from now on. -/
def clearS (t : TurnSt) : TurnSt :=
  ⟨none, t.view, false⟩

/-- Slot status as returned by `validate_slot`. -/
inductive SlotStatus where
  | available
  | booked
  | notFound
  | error
deriving DecidableEq, Repr

/-- External collaborators of the chat handler, supplied as oracles:
`validate_slot`, `book_appointment`, `cancel_appointment_flow`,
`get_available_slots`, and the inline doctor-existence query. -/
structure Env where
  validate : String → PDT → SlotStatus
  bookRes : String → PDT → Bool × String
  cancelRes : String → PDT → Bool × String
  slotsQ : PDT → PDT → Option String → Option (List String) × Option Bool
  doctorKnown : String → Bool

/-- The NLU adapter's structured result for one utterance. -/
structure DFResponse where
  intent : String
  fulfillment : String
  doctorParam : Option String
  dateParam : Option DTParam

/-- Python `str.strip()`: drop leading and trailing whitespace. -/
def pyStrip (s : String) : String :=
  ⟨((s.data.dropWhile Char.isWhitespace).reverse.dropWhile Char.isWhitespace).reverse⟩

/-- `parameters.get('doctor', '')` followed by `.strip() or None`. -/
def stripDoc (o : Option String) : Option String :=
  let s := pyStrip (o.getD "")
  if s.isEmpty then none else some s

/-- Truthiness of `parameters.get('doctor')` (absent key gives `None`). -/
def docParamTruthy : Option String → Bool
  | none => false
  | some s => !s.isEmpty

/-- The three exact intent names excluded from follow-up interception. -/
def primaryIntentNames : List String :=
  ["List Schedules", "Book Schedule", "Cancel Appointment"]

/-- The guard of step 1 of `chat`: intercept as a follow-up answer iff some
`awaiting_info` is pending, the parameters carry a truthy `date-time` or
`doctor`, and the intent is none of the three primary intent names. -/
def followupGuard (s : Sess) (r : DFResponse) : Bool :=
  s.awaiting_info.isSome &&
    (dtTruthyOpt r.dateParam || docParamTruthy r.doctorParam) &&
    !(primaryIntentNames.contains r.intent)

/-- Python `str(x)` of an optional doctor (`None` prints as "None"). -/
def pyStr (o : Option String) : String :=
  match o with
  | none => "None"
  | some s => s

/-- The `date_str` computed for list replies. -/
def dateRangeStr (st en : PDT) : String :=
  if diffDays en st = 1 then fmtBd st
  else fmtBd st ++ " to " ++ fmtBd (subOneDay en)

/-- The slot-list reply block (duplicated verbatim in `chat` for the
follow-up and the one-shot list paths). -/
def listSlotsReply (doctor : Option String) (st en : PDT)
    (q : Option (List String) × Option Bool) : String :=
  let dateStr := dateRangeStr st en
  match q.1 with
  | none => "I'm sorry, I'm having trouble reading the schedule file."
  | some slots =>
    if q.2 = some false then
      "I'm sorry, but we don't have " ++ pyStr doctor ++ " in our clinic."
    else if slots.isEmpty then
      (if (doctor.getD "").isEmpty then "There are no available slots on " ++ dateStr ++ "."
       else pyStr doctor ++ " has no available slots on " ++ dateStr ++ ".")
    else
      let slotsStr := String.intercalate ", " slots
      (if (doctor.getD "").isEmpty then
         "The following slots are open on " ++ dateStr ++ ": " ++ slotsStr ++ "."
       else pyStr doctor ++ " has the following open slots on " ++ dateStr ++ ": " ++
         slotsStr ++ ".")

/-- Outcome of the follow-up interception step: either a finished turn or a
(possibly updated) turn state plus the intent to dispatch on. -/
inductive StepRes where
  | done (reply : String) (store : Option Sess)
  | cont (t : TurnSt) (intent : String)

/-- Step 1 of `chat`: follow-up handling once `followupGuard` holds. -/
def interception (env : Env) (t : TurnSt) (r : DFResponse) : StepRes :=
  let doctorP := stripDoc r.doctorParam
  if t.view.awaiting_info = some "list_schedules_date" && dtTruthyOpt r.dateParam then
    match r.dateParam with
    | none => .cont t r.intent
    | some dp =>
      let doctor := t.view.schedule_doctor
      match parse_date_range_param dp with
      | (some st, some en) =>
        .done (listSlotsReply doctor st en (env.slotsQ st en doctor)) none
      | _ =>
        .done "I couldn't understand that date. Please try again (e.g., 'tomorrow' or 'October 25th')."
          t.store
  else if t.view.awaiting_info = some "book_schedule_datetime" then
    let t := match doctorP with
             | some d => updateS t (fun s => { s with doctor := some d })
             | none => t
    let t := match r.dateParam with
             | some dp => if dtTruthy dp then updateS t (fun s => { s with datetime := some dp }) else t
             | none => t
    .cont t "Book Schedule"
  else if t.view.awaiting_info = some "cancel_schedule_datetime" then
    let t := match doctorP with
             | some d => updateS t (fun s => { s with cancel_doctor := some d })
             | none => t
    let t := match r.dateParam with
             | some dp => if dtTruthy dp then updateS t (fun s => { s with cancel_datetime := some dp }) else t
             | none => t
    .cont t "Cancel Appointment"
  else .cont t r.intent

/-- The `List Schedules` branch of `chat`. -/
def listBranch (env : Env) (t : TurnSt) (r : DFResponse) : String × Option Sess :=
  let t := clearS t
  let t := updateS t (fun s => { s with awaiting_info := some "list_schedules_date" })
  let doctor := stripDoc r.doctorParam
  let afterDoctor : Option (TurnSt) :=
    match doctor with
    | some d => if env.doctorKnown d then some (updateS t (fun s => { s with schedule_doctor := some d })) else none
    | none => some t
  match afterDoctor with
  | none => ("I'm sorry, but we don't have " ++ pyStr doctor ++ " in our clinic.", none)
  | some t =>
    match r.dateParam with
    | none =>
      ((match doctor with
        | none => "For which date would you like to check the schedule?"
        | some d => "For which date would you like to check " ++ d ++ "'s schedule?"),
       t.store)
    | some dp =>
      if !dtTruthy dp then
        ((match doctor with
          | none => "For which date would you like to check the schedule?"
          | some d => "For which date would you like to check " ++ d ++ "'s schedule?"),
         t.store)
      else
        match parse_date_range_param dp with
        | (some st, some en) => (listSlotsReply doctor st en (env.slotsQ st en doctor), none)
        | _ => ("I couldn't understand the date you mentioned. Please try again.", t.store)

/-- The `Book Schedule` branch of `chat`. -/
def bookBranch (env : Env) (t : TurnSt) (r : DFResponse) : String × Option Sess :=
  let doctorP := stripDoc r.doctorParam
  let t := if t.view.booking_flow then t else clearS t
  let t := updateS t (fun s => { s with booking_flow := true })
  let t := updateS t (fun s => { s with awaiting_info := some "book_schedule_datetime" })
  let t := match doctorP with
           | some d => updateS t (fun s => { s with doctor := some d })
           | none => t
  let t := match r.dateParam with
           | some dp => if dtTruthy dp then updateS t (fun s => { s with datetime := some dp }) else t
           | none => t
  match t.view.doctor with
  | none => ("Which doctor would you like to book an appointment with?", t.store)
  | some d =>
    match t.view.datetime with
    | none => ("What date and time would you like to see " ++ d ++ "?", t.store)
    | some dp =>
      match parse_datetime_param dp with
      | none =>
        ("I couldn't understand the date and time. Please specify when you'd like the appointment (e.g., 'tomorrow at 1:00 PM').",
         (updateS t (fun s => { s with datetime := none })).store)
      | some adt =>
        match env.validate d (dropTz adt) with
        | .available =>
          let res := env.bookRes d (dropTz adt)
          (res.2, if res.1 then none else t.store)
        | .booked =>
          ("Sorry, this slot is already booked. " ++ d ++ " is not available at " ++
             fmtIMonBd adt ++ ". Please choose another time.",
           (updateS t (fun s => { s with datetime := none })).store)
        | .error =>
          ("An error occurred while checking the schedule. Please try again.", none)
        | .notFound =>
          ("Sorry, " ++ d ++ " doesn't have a slot at " ++ fmtIMonBd adt ++
             ". Please choose another time.",
           (updateS t (fun s => { s with datetime := none })).store)

/-- The `Cancel Appointment` branch of `chat`. -/
def cancelBranch (env : Env) (t : TurnSt) (r : DFResponse) : String × Option Sess :=
  let t := if t.view.cancel_flow then t else clearS t
  let t := updateS t (fun s => { s with cancel_flow := true })
  let t := updateS t (fun s => { s with awaiting_info := some "cancel_schedule_datetime" })
  let t := match stripDoc r.doctorParam with
           | some d => updateS t (fun s => { s with cancel_doctor := some d })
           | none => t
  let t := match r.dateParam with
           | some dp => if dtTruthy dp then updateS t (fun s => { s with cancel_datetime := some dp }) else t
           | none => t
  match t.view.cancel_doctor with
  | none => ("Which doctor's appointment would you like to cancel?", t.store)
  | some d =>
    match t.view.cancel_datetime with
    | none => ("What date and time is your appointment with " ++ d ++ "?", t.store)
    | some dp =>
      match parse_datetime_param dp with
      | none =>
        ("I couldn't understand the date and time. Please specify when your appointment is.",
         (updateS t (fun s => { s with cancel_datetime := none })).store)
      | some adt =>
        let res := env.cancelRes d (dropTz adt)
        if res.1 then (res.2, none)
        else (res.2, (updateS t (fun s => { s with cancel_datetime := none })).store)

/-- The fallback step of `chat`: context-specific re-prompt while awaiting,
else the adapter's own fulfillment text. -/
def fallbackBranch (t : TurnSt) (r : DFResponse) : String × Option Sess :=
  match t.view.awaiting_info with
  | some "list_schedules_date" =>
    ("Sorry, I didn't catch that. What date were you interested in?", t.store)
  | some "book_schedule_datetime" =>
    ("Sorry, I missed that. What was the doctor or time you wanted to book?", t.store)
  | some "cancel_schedule_datetime" =>
    ("Sorry, I didn't get that. What was the doctor or time for the cancellation?", t.store)
  | _ => (r.fulfillment, t.store)

/-- Intent-name groups handled by the primary dispatch. -/
def listIntentNames : List String :=
  ["List Schedules", "List Schedules - provide doctor", "List Schedules - provide datetime"]

/-- Book intent names. -/
def bookIntentNames : List String :=
  ["Book Schedule", "Book Schedule - provide doctor", "Book Schedule - provide datetime"]

/-- Cancel intent names. -/
def cancelIntentNames : List String :=
  ["Cancel Appointment", "Cancel Appointment - provide doctor", "Cancel Appointment - provide datetime"]

/-- Step 2/3 of `chat`: dispatch on the (possibly rewritten) intent name. -/
def dispatch (env : Env) (t : TurnSt) (intent : String) (r : DFResponse) :
    String × Option Sess :=
  if listIntentNames.contains intent then listBranch env t r
  else if bookIntentNames.contains intent then bookBranch env t r
  else if cancelIntentNames.contains intent then cancelBranch env t r
  else fallbackBranch t r

/-- The `chat` request handler (`app.py`): one turn for one session.
`store0` is the sessions-map entry for the session id before the turn,
`resp` the NLU adapter's response (`none` models adapter failure); result is
the reply text and the sessions-map entry after the turn. -/
def chat (env : Env) (store0 : Option Sess) (resp : Option DFResponse) :
    String × Option Sess :=
  let t := mkTurn store0
  match resp with
  | none => ("I'm having trouble connecting. Please try again.", t.store)
  | some r =>
    if followupGuard t.view r then
      match interception env t r with
      | .done reply st => (reply, st)
      | .cont t' intent' => dispatch env t' intent' r
    else dispatch env t r.intent r

/-! ### `services/booking_handler.py`

`book_appointment`, `cancel_appointment_flow` and `validate_slot` over an
explicit schedule table and external calendar.  The external collaborators
(sqlite connection, Google Calendar API) can fail; `BEnv` injects those
outcomes: `dbOk` covers the connection/SELECT phase (a `sqlite3.Error`
there is caught and reported), `calInsert`/`calDelete` the calendar calls,
and `dbUpdateOk` the final UPDATE/commit (on failure sqlite rolls the
uncommitted UPDATE back, so the table is unchanged).  A failed calendar
insert is assumed not to have created an event. -/

/-- One row of the `schedules` table. -/
structure Row where
  doctor : String
  specialty : String
  email : Option String
  dt : String
  status : String
  calendarEventId : Option String
deriving DecidableEq, Repr

/-- Schedule table plus the set of events existing in the external calendar. -/
structure BookingWorld where
  db : List Row
  calendar : List String
deriving DecidableEq, Repr

/-- Outcome of one calendar deletion attempt. -/
inductive CalDelRes where
  | ok
  | gone404
  | httpFail
  | otherFail
deriving DecidableEq, Repr

/-- Injected outcomes of the external calls made by the booking handler. -/
structure BEnv where
  dbOk : Bool
  calInsert : Option String
  calDelete : CalDelRes
  dbUpdateOk : Bool
deriving DecidableEq, Repr

/-- Calendar API calls performed during one handler run. -/
inductive CalOp where
  | insert
  | delete (id : String)
deriving DecidableEq, Repr

/-- Result of one booking-handler operation: the returned `(success,
message)` pair, the world afterwards, and the calendar calls made. -/
structure OpResult where
  success : Bool
  message : String
  world : BookingWorld
  calCalls : List CalOp
deriving DecidableEq, Repr

/-- ASCII lower-casing of one character (SQL `LOWER`). -/
def charLower (c : Char) : Char :=
  if 'A' ≤ c ∧ c ≤ 'Z' then Char.ofNat (c.toNat + 32) else c

/-- SQL `LOWER(s)`. -/
def sqlLower (s : String) : String :=
  ⟨s.data.map charLower⟩

/-- `LOWER(Doctor) = LOWER(?)`. -/
def lowerEq (a b : String) : Bool :=
  sqlLower a == sqlLower b

/-- `pad4s`: four-digit zero-padded rendering (years). -/
def pad4s (n : Nat) : String :=
  pad2s (n / 100) ++ pad2s (n % 100)

/-- `appointment_datetime.isoformat()` for a naive minute/second datetime. -/
def isoOf (p : PDT) : String :=
  pad4s p.year ++ "-" ++ pad2s p.month ++ "-" ++ pad2s p.day ++ "T" ++
    pad2s p.hour ++ ":" ++ pad2s p.minute ++ ":" ++ pad2s p.second

/-- Row predicate of the booking SELECT (`LOWER(Doctor) = LOWER(?) AND
DateTime = ? AND Status = ?`). -/
def rowMatch (doctor dtStr status : String) (r : Row) : Bool :=
  lowerEq r.doctor doctor && r.dt == dtStr && r.status == status

/-- Row predicate of the UPDATE statements (no status filter). -/
def rowKey (doctor dtStr : String) (r : Row) : Bool :=
  lowerEq r.doctor doctor && r.dt == dtStr

/-- `book_appointment` from `services/booking_handler.py`: SELECT the open
slot (with specialty and email), create the calendar event first, then
UPDATE the row to `Booked` storing the event id. -/
def book_appointment (env : BEnv) (w : BookingWorld) (doctor : String) (adt : PDT) :
    OpResult :=
  if !env.dbOk then
    ⟨false, "Failed to book appointment due to a database error.", w, []⟩
  else
    let dtStr := isoOf adt
    match w.db.find? (rowMatch doctor dtStr "Open") with
    | none => ⟨false, "This slot is no longer available.", w, []⟩
    | some row =>
      if (row.email.getD "").isEmpty then
        ⟨false, "Could not find an email address for " ++ doctor ++ " in the database.",
         w, []⟩
      else
        match env.calInsert with
        | none =>
          ⟨false, "An unknown error occurred while creating the calendar event.", w, [.insert]⟩
        | some evId =>
          let w := { w with calendar := w.calendar ++ [evId] }
          if !env.dbUpdateOk then
            ⟨false, "Failed to book appointment due to a database error.", w, [.insert]⟩
          else
            let db' := w.db.map (fun r =>
              if rowKey doctor dtStr r then
                { r with status := "Booked", calendarEventId := some evId }
              else r)
            ⟨true, "Appointment booked successfully! The calendar for " ++ doctor ++
               " has been updated.",
             { w with db := db' }, [.insert]⟩

/-- The tail of `cancel_appointment_flow`: UPDATE the row back to `Open`
with a NULL calendar reference and commit. -/
def cancelDbUpdate (env : BEnv) (w : BookingWorld) (doctor : String) (adt : PDT)
    (calls : List CalOp) : OpResult :=
  if !env.dbUpdateOk then
    ⟨false, "Failed to cancel the appointment due to a database error.", w, calls⟩
  else
    let db' := w.db.map (fun r =>
      if rowKey doctor (isoOf adt) r then
        { r with status := "Open", calendarEventId := none }
      else r)
    ⟨true, "Your appointment with " ++ doctor ++ " at " ++ fmtIM adt ++
       " has been successfully cancelled.",
     { w with db := db' }, calls⟩

/-- `cancel_appointment_flow` from `services/booking_handler.py`: SELECT the
booked row's calendar reference, delete the calendar event if a reference
exists (a 404 counts as already gone; a missing reference skips the
calendar entirely), then flip the row back to `Open`. -/
def cancel_appointment_flow (env : BEnv) (w : BookingWorld) (doctor : String)
    (adt : PDT) : OpResult :=
  if !env.dbOk then
    ⟨false, "Failed to cancel the appointment due to a database error.", w, []⟩
  else
    match w.db.find? (rowMatch doctor (isoOf adt) "Booked") with
    | none =>
      ⟨false, "I couldn't find a booked appointment for that doctor at that specific time.", w, []⟩
    | some row =>
      let evId := row.calendarEventId.getD ""
      if evId.isEmpty then
        cancelDbUpdate env w doctor adt []
      else
        match env.calDelete with
        | .ok =>
          cancelDbUpdate env { w with calendar := w.calendar.filter (fun i => i ≠ evId) }
            doctor adt [.delete evId]
        | .gone404 => cancelDbUpdate env w doctor adt [.delete evId]
        | .httpFail =>
          ⟨false, "Failed to cancel the calendar event. Please try again.", w, [.delete evId]⟩
        | .otherFail =>
          ⟨false, "An error occurred trying to contact the calendar service.", w, [.delete evId]⟩

/-- `validate_slot` from `services/booking_handler.py`. -/
def validate_slot (dbOk : Bool) (db : List Row) (doctor : String) (adt : PDT) :
    SlotStatus :=
  if !dbOk then .error
  else
    match db.find? (rowKey doctor (isoOf adt)) with
    | none => .notFound
    | some row =>
      if row.status == "Open" then .available
      else if row.status == "Booked" then .booked
      else .notFound

/-- A throwaway oracle environment for concrete evaluations. -/
def env0 : Env where
  validate := fun _ _ => .booked
  bookRes := fun _ _ => (false, "")
  cancelRes := fun _ _ => (false, "")
  slotsQ := fun _ _ _ => (some [], none)
  doctorKnown := fun _ => true

/-! ### Canonical ISO renderings and the parsing round-trip

Test-harness side: canonical ISO renderings of clock readings and offsets,
used to quantify over "every ISO datetime string" in the resolution claims. -/

/-- The decimal digit character for `k < 10`. -/
def digitChar2 (k : Nat) : Char :=
  Char.ofNat (48 + k)

/-- Two-digit zero-padded rendering as characters (`n < 100`). -/
def pad2c (n : Nat) : List Char :=
  [digitChar2 (n / 10), digitChar2 (n % 10)]

/-- `YYYY-MM-DD` as characters. -/
def dateChars (y mo dy : Nat) : List Char :=
  pad2c (y / 100) ++ (pad2c (y % 100) ++ ('-' :: (pad2c mo ++ ('-' :: pad2c dy))))

/-- `HH:MM:SS` as characters. -/
def timeChars (h mi s : Nat) : List Char :=
  pad2c h ++ (':' :: (pad2c mi ++ (':' :: pad2c s)))

/-- The rendered ISO date string `YYYY-MM-DD`. -/
def renderDate (y mo dy : Nat) : String :=
  ⟨dateChars y mo dy⟩

/-- A UTC-offset suffix of an ISO datetime string. -/
inductive OffSuffix where
  | empty
  | zulu
  | plus (oh om : Nat)
  | minus (oh om : Nat)
deriving DecidableEq, Repr

/-- The characters of an offset suffix. -/
def offChars : OffSuffix → List Char
  | .empty => []
  | .zulu => ['Z']
  | .plus oh om => '+' :: (pad2c oh ++ (':' :: pad2c om))
  | .minus oh om => '-' :: (pad2c oh ++ (':' :: pad2c om))

/-- Offset-suffix validity (what `fromisoformat` accepts). -/
def validOff : OffSuffix → Prop
  | .plus oh om => oh < 24 ∧ om < 60
  | .minus oh om => oh < 24 ∧ om < 60
  | _ => True

/-- The tz kept by `parse_datetime_param` on a string carrying this suffix:
`+HH:MM` and `Z` are textually stripped before parsing, a negative offset
survives into the parsed value. -/
def keptTz : OffSuffix → Option Int
  | .minus oh om => some (-((oh * 60 + om : Nat) : Int))
  | _ => none

/-- The rendered ISO datetime string `YYYY-MM-DDTHH:MM:SS` plus suffix. -/
def renderClock (y mo dy h mi s : Nat) (off : OffSuffix) : String :=
  ⟨dateChars y mo dy ++ ('T' :: (timeChars h mi s ++ offChars off))⟩

lemma d1_digitChar2 (k : Nat) (hk : k < 10) : d1 (digitChar2 k) = some k := by
  interval_cases k <;> decide

lemma parse2_pad2c (n : Nat) (hn : n < 100) (r : List Char) :
    parse2 (pad2c n ++ r) = some (n, r) := by
  have h1 : n / 10 < 10 := by omega
  have h2 : n % 10 < 10 := by omega
  have hn' : 10 * (n / 10) + n % 10 = n := by omega
  simp only [pad2c, List.cons_append, List.nil_append, parse2,
    d1_digitChar2 _ h1, d1_digitChar2 _ h2, hn']

lemma parse2_pad2c_nil (n : Nat) (hn : n < 100) :
    parse2 (pad2c n) = some (n, []) := by
  have := parse2_pad2c n hn []
  simpa using this

lemma parse4_pads (y : Nat) (hy : y ≤ 9999) (r : List Char) :
    parse4 (pad2c (y / 100) ++ (pad2c (y % 100) ++ r)) = some (y, r) := by
  have h1 : y / 100 < 100 := by omega
  have h2 : y % 100 < 100 := by omega
  have hy' : 100 * (y / 100) + y % 100 = y := by omega
  rw [parse4]
  simp only [parse2_pad2c _ h1, parse2_pad2c _ h2, hy']

lemma expectCh_cons (c : Char) (r : List Char) : expectCh c (c :: r) = some r := by
  simp [expectCh]

/-- The tz produced by `parseOffset` on a rendered suffix (this is what the
parser itself sees; `Z` reaches it only when not already stripped). -/
def parsedTz : OffSuffix → Option Int
  | .empty => none
  | .zulu => some 0
  | .plus oh om => some ((oh * 60 + om : Nat) : Int)
  | .minus oh om => some (-((oh * 60 + om : Nat) : Int))

lemma parseOffset_offChars (off : OffSuffix) (hv : validOff off) :
    parseOffset (offChars off) = some (parsedTz off) := by
  cases off with
  | empty => rfl
  | zulu => rfl
  | plus oh om =>
    obtain ⟨h1, h2⟩ := hv
    rw [offChars, show parseOffset ('+' :: (pad2c oh ++ (':' :: pad2c om))) =
      (match parse2 (pad2c oh ++ (':' :: pad2c om)) with
       | none => none
       | some (h, r1) =>
         match expectCh ':' r1 with
         | none => none
         | some r2 =>
           match parse2 r2 with
           | some (m, []) =>
             if h < 24 ∧ m < 60 then some (some ((h * 60 + m : Nat) : Int)) else none
           | _ => none) from rfl]
    simp only [parse2_pad2c _ (show oh < 100 by omega), expectCh_cons,
      parse2_pad2c_nil _ (show om < 100 by omega)]
    simp [parsedTz, h1, h2]
  | minus oh om =>
    obtain ⟨h1, h2⟩ := hv
    rw [offChars, show parseOffset ('-' :: (pad2c oh ++ (':' :: pad2c om))) =
      (match parse2 (pad2c oh ++ (':' :: pad2c om)) with
       | none => none
       | some (h, r1) =>
         match expectCh ':' r1 with
         | none => none
         | some r2 =>
           match parse2 r2 with
           | some (m, []) =>
             if h < 24 ∧ m < 60 then some (some (-((h * 60 + m : Nat) : Int))) else none
           | _ => none) from rfl]
    simp only [parse2_pad2c _ (show oh < 100 by omega), expectCh_cons,
      parse2_pad2c_nil _ (show om < 100 by omega)]
    simp [parsedTz, h1, h2]

lemma parseTimePart_chars (h mi s : Nat) (hh : h < 100) (hmi : mi < 100)
    (hs : s < 100) (off : OffSuffix) (hv : validOff off) :
    parseTimePart (timeChars h mi s ++ offChars off) =
      some (h, mi, s, parsedTz off) := by
  rw [show timeChars h mi s ++ offChars off =
      pad2c h ++ (':' :: (pad2c mi ++ (':' :: (pad2c s ++ offChars off)))) by
    simp [timeChars]]
  rw [parseTimePart]
  simp only [parse2_pad2c _ hh, expectCh_cons, parse2_pad2c _ hmi,
    parse2_pad2c _ hs, parseOffset_offChars off hv]

lemma daysInMonth_le (y m : Nat) : daysInMonth y m ≤ 31 := by
  unfold daysInMonth
  split
  · split <;> omega
  · split <;> omega

lemma fromisoChars_date_time (y mo dy h mi s : Nat) (off : OffSuffix)
    (hval : validDT y mo dy h mi s = true) (hy : y ≤ 9999)
    (hh : h < 100) (hmi : mi < 100) (hs : s < 100) (hv : validOff off) :
    fromisoChars (dateChars y mo dy ++ ('T' :: (timeChars h mi s ++ offChars off))) =
      some ⟨y, mo, dy, h, mi, s, parsedTz off⟩ := by
  have hb := daysInMonth_le y mo
  simp only [validDT, Bool.and_eq_true, decide_eq_true_eq] at hval
  have hmo : mo < 100 := by omega
  have hdy : dy < 100 := by omega
  rw [fromisoChars]
  rw [show dateChars y mo dy ++ ('T' :: (timeChars h mi s ++ offChars off)) =
      pad2c (y / 100) ++ (pad2c (y % 100) ++ ('-' :: (pad2c mo ++
        ('-' :: (pad2c dy ++ ('T' :: (timeChars h mi s ++ offChars off))))))) by
    simp [dateChars]]
  simp only [parse4_pads y hy, expectCh_cons, parse2_pad2c _ hmo,
    parse2_pad2c _ hdy, parseTimePart_chars h mi s hh hmi hs off hv]
  have : validDT y mo dy h mi s = true := by
    simp only [validDT, Bool.and_eq_true, decide_eq_true_eq]
    omega
  simp [this]

lemma fromisoChars_date_only (y mo dy : Nat)
    (hval : validDT y mo dy 0 0 0 = true) (hy : y ≤ 9999) :
    fromisoChars (dateChars y mo dy) = some ⟨y, mo, dy, 0, 0, 0, none⟩ := by
  have hb := daysInMonth_le y mo
  simp only [validDT, Bool.and_eq_true, decide_eq_true_eq] at hval
  have hmo : mo < 100 := by omega
  have hdy : dy < 100 := by omega
  rw [fromisoChars]
  rw [show dateChars y mo dy =
      pad2c (y / 100) ++ (pad2c (y % 100) ++ ('-' :: (pad2c mo ++
        ('-' :: (pad2c dy ++ ([] : List Char)))))) by simp [dateChars]]
  simp only [parse4_pads y hy, expectCh_cons, parse2_pad2c _ hmo,
    parse2_pad2c _ hdy]
  have : validDT y mo dy 0 0 0 = true := by
    simp only [validDT, Bool.and_eq_true, decide_eq_true_eq]
    omega
  simp [this]

lemma digitChar2_ne (k : Nat) (hk : k < 10) :
    digitChar2 k ≠ '+' ∧ digitChar2 k ≠ 'Z' := by
  interval_cases k <;> decide

lemma takeWhile_eq_self_of (p : Char → Bool) (l : List Char)
    (h : ∀ c ∈ l, p c = true) : l.takeWhile p = l := by
  induction l with
  | nil => rfl
  | cons a t ih =>
    rw [List.takeWhile_cons, h a (by simp), ih (fun c hc => h c (by simp [hc]))]
    rfl

lemma takeWhile_append_stop (p : Char → Bool) (l r : List Char) (x : Char)
    (h : ∀ c ∈ l, p c = true) (hx : p x = false) :
    (l ++ x :: r).takeWhile p = l := by
  induction l with
  | nil => simp [List.takeWhile_cons, hx]
  | cons a t ih =>
    rw [List.cons_append, List.takeWhile_cons, h a (by simp),
      ih (fun c hc => h c (by simp [hc]))]
    rfl

lemma filter_eq_self_of (p : Char → Bool) (l : List Char)
    (h : ∀ c ∈ l, p c = true) : l.filter p = l := by
  induction l with
  | nil => rfl
  | cons a t ih =>
    rw [List.filter_cons, if_pos (h a (by simp)),
      ih (fun c hc => h c (by simp [hc]))]

lemma clean_clock (y mo dy h mi s : Nat) (hy : y ≤ 9999) (hmo : mo < 100)
    (hdy : dy < 100) (hh : h < 100) (hmi2 : mi < 100) (hs : s < 100) :
    ∀ c ∈ dateChars y mo dy ++ ('T' :: timeChars h mi s), c ≠ '+' ∧ c ≠ 'Z' := by
  intro c hc
  simp only [dateChars, timeChars, pad2c, List.mem_append, List.mem_cons,
    List.not_mem_nil, or_false] at hc
  rcases hc with ((h' | h') | ((h' | h') | (h' | ((h' | h') | (h' | (h' | h')))))) |
      (h' | ((h' | h') | (h' | ((h' | h') | (h' | (h' | h')))))) <;>
    subst h' <;>
    first
      | exact digitChar2_ne _ (by omega)
      | decide

lemma clean_off_chars (off : OffSuffix) (hv : validOff off) (hnp : off ≠ .zulu) :
    ∀ c ∈ offChars off, c ≠ 'Z' := by
  intro c hc
  cases off with
  | empty => simp [offChars] at hc
  | zulu => exact absurd rfl hnp
  | plus oh om =>
    obtain ⟨h1, h2⟩ := hv
    simp only [offChars, pad2c, List.mem_cons, List.mem_append,
      List.not_mem_nil, or_false] at hc
    rcases hc with h' | ((h' | h') | (h' | (h' | h'))) <;> subst h' <;>
      first
        | exact (digitChar2_ne _ (by omega)).2
        | decide
  | minus oh om =>
    obtain ⟨h1, h2⟩ := hv
    simp only [offChars, pad2c, List.mem_cons, List.mem_append,
      List.not_mem_nil, or_false] at hc
    rcases hc with h' | ((h' | h') | (h' | (h' | h'))) <;> subst h' <;>
      first
        | exact (digitChar2_ne _ (by omega)).2
        | decide

lemma clean_minus_plusfree (oh om : Nat) (h1 : oh < 24) (h2 : om < 60) :
    ∀ c ∈ offChars (.minus oh om), c ≠ '+' := by
  intro c hc
  simp only [offChars, pad2c, List.mem_cons, List.mem_append,
    List.not_mem_nil, or_false] at hc
  rcases hc with h' | ((h' | h') | (h' | (h' | h'))) <;> subst h' <;>
    first
      | exact (digitChar2_ne _ (by omega)).1
      | decide

lemma stripPlus_of_clean (cs : List Char) (h : ∀ c ∈ cs, c ≠ '+') :
    stripPlus ⟨cs⟩ = ⟨cs⟩ := by
  unfold stripPlus
  congr 1
  exact takeWhile_eq_self_of _ cs (fun c hc => by simp [h c hc])

lemma stripPlus_append_plus (cs r : List Char) (h : ∀ c ∈ cs, c ≠ '+') :
    stripPlus ⟨cs ++ '+' :: r⟩ = ⟨cs⟩ := by
  unfold stripPlus
  congr 1
  exact takeWhile_append_stop _ cs r '+' (fun c hc => by simp [h c hc]) (by simp)

lemma removeZ_of_clean (cs : List Char) (h : ∀ c ∈ cs, c ≠ 'Z') :
    removeZ ⟨cs⟩ = ⟨cs⟩ := by
  unfold removeZ
  congr 1
  exact filter_eq_self_of _ cs (fun c hc => by simp [h c hc])

lemma removeZ_append_z (cs : List Char) (h : ∀ c ∈ cs, c ≠ 'Z') :
    removeZ ⟨cs ++ ['Z']⟩ = ⟨cs⟩ := by
  unfold removeZ
  congr 1
  rw [List.filter_append, filter_eq_self_of _ cs (fun c hc => by simp [h c hc])]
  simp

/-! ### Claim theorems -/

/-- C6: datetime resolution on an ISO datetime string parses it as the
wall-clock reading written in the string, for every clock reading accepted
by `fromisoformat` and every UTC-offset suffix: no suffix, `Z`, a positive
offset (both textually stripped), or a negative offset (parsed but leaving
the wall-clock fields untouched).  The returned timestamp's clock reading
always equals the clock reading written in the string. -/
theorem C6_datetime_clock_reading_preserved
    (y mo dy h mi s : Nat) (off : OffSuffix)
    (hval : validDT y mo dy h mi s = true) (hv : validOff off) :
    parse_datetime_param (.str (renderClock y mo dy h mi s off)) =
      some ⟨y, mo, dy, h, mi, s, keptTz off⟩ := by
  have hb := daysInMonth_le y mo
  have hval' := hval
  simp only [validDT, Bool.and_eq_true, decide_eq_true_eq] at hval'
  have hclean := clean_clock y mo dy h mi s (by omega) (by omega) (by omega)
    (by omega) (by omega) (by omega)
  have core : fromisoformat ⟨dateChars y mo dy ++ ('T' :: timeChars h mi s)⟩ =
      some ⟨y, mo, dy, h, mi, s, none⟩ := by
    rw [fromisoformat]
    rw [show (⟨dateChars y mo dy ++ ('T' :: timeChars h mi s)⟩ : String).data =
        dateChars y mo dy ++ ('T' :: (timeChars h mi s ++ offChars OffSuffix.empty))
      by simp [offChars]]
    rw [fromisoChars_date_time y mo dy h mi s .empty hval (by omega) (by omega)
      (by omega) (by omega) trivial]
    rfl
  cases off with
  | empty =>
    simp only [parse_datetime_param, renderClock]
    rw [show (dateChars y mo dy ++ ('T' :: (timeChars h mi s ++ offChars OffSuffix.empty)) :
        List Char) = dateChars y mo dy ++ ('T' :: timeChars h mi s) by simp [offChars]]
    rw [stripPlus_of_clean _ (fun c hc => (hclean c hc).1),
      removeZ_of_clean _ (fun c hc => (hclean c hc).2), core]
    rfl
  | zulu =>
    simp only [parse_datetime_param, renderClock]
    rw [show (dateChars y mo dy ++ ('T' :: (timeChars h mi s ++ offChars OffSuffix.zulu)) :
        List Char) = (dateChars y mo dy ++ ('T' :: timeChars h mi s)) ++ ['Z']
      by simp [offChars]]
    rw [stripPlus_of_clean _ (fun c hc => by
      rcases List.mem_append.1 hc with hc' | hc'
      · exact (hclean c hc').1
      · simp at hc'
        subst hc'
        decide)]
    rw [removeZ_append_z _ (fun c hc => (hclean c hc).2), core]
    rfl
  | plus oh om =>
    simp only [parse_datetime_param, renderClock]
    rw [show (dateChars y mo dy ++
        ('T' :: (timeChars h mi s ++ offChars (OffSuffix.plus oh om))) : List Char) =
        (dateChars y mo dy ++ ('T' :: timeChars h mi s)) ++
          ('+' :: (pad2c oh ++ (':' :: pad2c om))) by simp [offChars]]
    rw [stripPlus_append_plus _ _ (fun c hc => (hclean c hc).1),
      removeZ_of_clean _ (fun c hc => (hclean c hc).2), core]
    rfl
  | minus oh om =>
    obtain ⟨h1, h2⟩ := hv
    simp only [parse_datetime_param, renderClock]
    rw [stripPlus_of_clean _ (fun c hc => by
      rw [show (dateChars y mo dy ++
          ('T' :: (timeChars h mi s ++ offChars (OffSuffix.minus oh om))) : List Char) =
          (dateChars y mo dy ++ ('T' :: timeChars h mi s)) ++
            offChars (OffSuffix.minus oh om) by simp [offChars]] at hc
      rcases List.mem_append.1 hc with hc' | hc'
      · exact (hclean c hc').1
      · exact clean_minus_plusfree oh om h1 h2 c hc')]
    rw [removeZ_of_clean _ (fun c hc => by
      rw [show (dateChars y mo dy ++
          ('T' :: (timeChars h mi s ++ offChars (OffSuffix.minus oh om))) : List Char) =
          (dateChars y mo dy ++ ('T' :: timeChars h mi s)) ++
            offChars (OffSuffix.minus oh om) by simp [offChars]] at hc
      rcases List.mem_append.1 hc with hc' | hc'
      · exact (hclean c hc').2
      · exact clean_off_chars (.minus oh om) ⟨h1, h2⟩ (by simp) c hc')]
    rw [fromisoformat]
    rw [show (⟨dateChars y mo dy ++
        ('T' :: (timeChars h mi s ++ offChars (OffSuffix.minus oh om)))⟩ : String).data =
        dateChars y mo dy ++
          ('T' :: (timeChars h mi s ++ offChars (OffSuffix.minus oh om))) from rfl]
    rw [fromisoChars_date_time y mo dy h mi s (.minus oh om) hval (by omega)
      (by omega) (by omega) (by omega) ⟨h1, h2⟩]
    rfl

/-- Strict wall-clock ordering of two datetimes (lexicographic on the clock
fields).  For two values carrying the same UTC offset — as all outputs of
`parse_date_range_param` do, both being localized to the clinic's fixed
offset — this coincides with Python's datetime `<`. -/
def beforeWall (a b : PDT) : Bool :=
  if a.year ≠ b.year then decide (a.year < b.year)
  else if a.month ≠ b.month then decide (a.month < b.month)
  else if a.day ≠ b.day then decide (a.day < b.day)
  else if a.hour ≠ b.hour then decide (a.hour < b.hour)
  else if a.minute ≠ b.minute then decide (a.minute < b.minute)
  else decide (a.second < b.second)

lemma beforeWall_addOneDay (p : PDT) : beforeWall p (addOneDay p) = true := by
  unfold addOneDay nextDate
  by_cases h1 : p.day < daysInMonth p.year p.month
  · simp only [h1, if_true]
    unfold beforeWall
    simp
  · by_cases h2 : p.month < 12
    · simp only [h1, h2, if_false, if_true]
      unfold beforeWall
      simp only []
      rw [if_neg (by simp), if_pos (by omega)]
      simp
    · simp only [h1, h2, if_false]
      unfold beforeWall
      simp only []
      rw [if_pos (by omega)]
      simp

lemma beforeWall_midnights (y1 m1 d1 y2 m2 d2 : Nat) (tz : Option Int)
    (hlt : y1 < y2 ∨ (y1 = y2 ∧ (m1 < m2 ∨ (m1 = m2 ∧ d1 < d2)))) :
    beforeWall ⟨y1, m1, d1, 0, 0, 0, tz⟩ ⟨y2, m2, d2, 0, 0, 0, tz⟩ = true := by
  unfold beforeWall
  simp only []
  rcases hlt with h | ⟨rfl, h | ⟨rfl, h⟩⟩
  · rw [if_pos (by omega)]
    simp [h]
  · rw [if_neg (by simp), if_pos (by omega)]
    simp [h]
  · rw [if_neg (by simp), if_neg (by simp), if_pos (by omega)]
    simp [h]

/-- C7 counterexample: a valid `{startDate, endDate}` pair whose end date
lies before its start date resolves to a pair of local midnights with the
end strictly before the start — the half-open range is empty, refuting "the
resulting range is always non-empty for valid inputs". -/
theorem C7_counterexample :
    parse_date_range_param
        (.dict [("startDate", "2025-10-25"), ("endDate", "2025-10-20")]) =
      (some ⟨2025, 10, 25, 0, 0, 0, some 120⟩,
       some ⟨2025, 10, 20, 0, 0, 0, some 120⟩) ∧
    beforeWall ⟨2025, 10, 20, 0, 0, 0, some 120⟩
      ⟨2025, 10, 25, 0, 0, 0, some 120⟩ = true := by
  decide

/-- C7 (amended): date-range resolution maps an ISO date string to the
half-open range from that day's local midnight to the next day's local
midnight (always non-empty), and maps a start/end date pair to their local
midnights, pushing the end forward one day exactly when both denote the
same calendar day; the resulting range is non-empty whenever the start date
is not after the end date (an end date strictly before the start date
yields an empty range, as the counterexample shows). -/
theorem C7_amended_date_range_resolution :
    (∀ y mo dy : Nat, validDT y mo dy 0 0 0 = true →
       parse_date_range_param (.str (renderDate y mo dy)) =
         (some ⟨y, mo, dy, 0, 0, 0, some 120⟩,
          some (addOneDay ⟨y, mo, dy, 0, 0, 0, some 120⟩)) ∧
       beforeWall ⟨y, mo, dy, 0, 0, 0, some 120⟩
         (addOneDay ⟨y, mo, dy, 0, 0, 0, some 120⟩) = true) ∧
    (∀ y1 m1 d1 y2 m2 d2 : Nat, validDT y1 m1 d1 0 0 0 = true →
       validDT y2 m2 d2 0 0 0 = true →
       parse_date_range_param (.dict [("startDate", renderDate y1 m1 d1),
           ("endDate", renderDate y2 m2 d2)]) =
         (some ⟨y1, m1, d1, 0, 0, 0, some 120⟩,
          some (if (y1, m1, d1) = (y2, m2, d2)
                then addOneDay ⟨y2, m2, d2, 0, 0, 0, some 120⟩
                else ⟨y2, m2, d2, 0, 0, 0, some 120⟩)) ∧
       ((y1 < y2 ∨ (y1 = y2 ∧ (m1 < m2 ∨ (m1 = m2 ∧ d1 ≤ d2)))) →
         beforeWall ⟨y1, m1, d1, 0, 0, 0, some 120⟩
           (if (y1, m1, d1) = (y2, m2, d2)
            then addOneDay ⟨y2, m2, d2, 0, 0, 0, some 120⟩
            else ⟨y2, m2, d2, 0, 0, 0, some 120⟩) = true)) := by
  have hiso : ∀ y mo dy : Nat, validDT y mo dy 0 0 0 = true →
      fromisoformat (renderDate y mo dy) = some ⟨y, mo, dy, 0, 0, 0, none⟩ := by
    intro y mo dy hval
    have hy : y ≤ 9999 := by
      simp only [validDT, Bool.and_eq_true, decide_eq_true_eq] at hval
      omega
    rw [fromisoformat]
    exact fromisoChars_date_only y mo dy hval hy
  constructor
  · intro y mo dy hval
    constructor
    · simp only [parse_date_range_param, hiso y mo dy hval, midnightOf, localize,
        cairoOffsetMin]
    · exact beforeWall_addOneDay _
  · intro y1 m1 d1 y2 m2 d2 hval1 hval2
    have hk1 : lookupKey [("startDate", renderDate y1 m1 d1),
        ("endDate", renderDate y2 m2 d2)] "startDate" =
        some (renderDate y1 m1 d1) := by
      simp [lookupKey]
    have hk2 : lookupKey [("startDate", renderDate y1 m1 d1),
        ("endDate", renderDate y2 m2 d2)] "endDate" =
        some (renderDate y2 m2 d2) := by
      simp [lookupKey]
    constructor
    · simp only [parse_date_range_param, hk1, hk2,
        hiso y1 m1 d1 hval1, hiso y2 m2 d2 hval2]
      simp only [midnightOf, localize, cairoOffsetMin, dateOf]
      by_cases heq : (y1, m1, d1) = (y2, m2, d2)
      · rw [if_pos heq, if_pos heq]
      · rw [if_neg heq, if_neg heq]
    · intro hle
      by_cases heq : (y1, m1, d1) = (y2, m2, d2)
      · obtain ⟨e1, e2, e3⟩ : y1 = y2 ∧ m1 = m2 ∧ d1 = d2 := by
          simpa [Prod.ext_iff] using heq
        subst e1
        subst e2
        subst e3
        rw [if_pos rfl]
        exact beforeWall_addOneDay _
      · rw [if_neg heq]
        apply beforeWall_midnights
        have hne : ¬(y1 = y2 ∧ m1 = m2 ∧ d1 = d2) := by
          intro ⟨a, b, c⟩
          exact heq (by simp [a, b, c])
        rcases hle with h | ⟨rfl, h | ⟨rfl, h⟩⟩
        · exact Or.inl h
        · exact Or.inr ⟨rfl, Or.inl h⟩
        · refine Or.inr ⟨rfl, Or.inr ⟨rfl, ?_⟩⟩
          rcases Nat.lt_or_ge d1 d2 with hd | hd
          · exact hd
          · exact absurd ⟨rfl, rfl, by omega⟩ hne

/-- C7 witness: the amended theorem's single-date clause applied at the
concrete date 2025-10-25, and its pair clause at the same-day pair. -/
theorem C7_amended_date_range_resolution_witness :
    (parse_date_range_param (.str (renderDate 2025 10 25)) =
       (some ⟨2025, 10, 25, 0, 0, 0, some 120⟩,
        some (addOneDay ⟨2025, 10, 25, 0, 0, 0, some 120⟩)) ∧
     beforeWall ⟨2025, 10, 25, 0, 0, 0, some 120⟩
       (addOneDay ⟨2025, 10, 25, 0, 0, 0, some 120⟩) = true) ∧
    beforeWall ⟨2025, 10, 25, 0, 0, 0, some 120⟩
      (if ((2025, 10, 25) : Nat × Nat × Nat) = (2025, 10, 25)
       then addOneDay ⟨2025, 10, 25, 0, 0, 0, some 120⟩
       else ⟨2025, 10, 25, 0, 0, 0, some 120⟩) = true :=
  ⟨C7_amended_date_range_resolution.1 2025 10 25 (by decide),
   (C7_amended_date_range_resolution.2 2025 10 25 2025 10 25 (by decide)
      (by decide)).2 (by omega)⟩

/-- C6 witness: the theorem applied at the concrete string
"2025-10-25T13:00:00+02:00" — the rendered clock 2025-10-25 13:00:00 with a
positive offset suffix — and also checked against the literal string. -/
theorem C6_datetime_clock_reading_preserved_witness :
    parse_datetime_param (.str (renderClock 2025 10 25 13 0 0 (.plus 2 0))) =
      some ⟨2025, 10, 25, 13, 0, 0, none⟩ ∧
    renderClock 2025 10 25 13 0 0 (.plus 2 0) = "2025-10-25T13:00:00+02:00" :=
  ⟨C6_datetime_clock_reading_preserved 2025 10 25 13 0 0 (.plus 2 0)
    (by decide) ⟨by decide, by decide⟩,
   by decide⟩

/-- C1: for a fresh session, handling "book with Dr. Lee" (book intent,
doctor="Dr. Lee", no datetime) leaves the session holding
`booking_flow=true`, `awaiting_info=book_schedule_datetime`,
`doctor="Dr. Lee"` as the claim states — but the reply is "Which doctor
would you like to book an appointment with?", not the claimed "What date
and time would you like to see Dr. Lee?": after `clear_session` the local
`session` reference is detached from the store, so the doctor just written
is not seen when the handler reads the merged state back. -/
theorem C1_fresh_book_with_doctor : ∀ (env : Env),
    chat env none (some ⟨"Book Schedule", "Okay.", some "Dr. Lee", none⟩) =
      ("Which doctor would you like to book an appointment with?",
       some { booking_flow := true, awaiting_info := some "book_schedule_datetime",
              doctor := some "Dr. Lee" }) ∧
    "Which doctor would you like to book an appointment with?" ≠
      "What date and time would you like to see Dr. Lee?" := by
  intro env
  exact ⟨rfl, by decide⟩

/-- C9: when the NLU adapter returns no response, `chat` replies with the
generic connectivity-error text and the stored session contents are exactly
what they were before the turn (for a previously unseen session id,
`get_session` has lazily created the empty context, which holds no field). -/
theorem C9_adapter_failure_session_untouched :
    (∀ (env : Env) (s0 : Sess),
       chat env (some s0) none =
         ("I'm having trouble connecting. Please try again.", some s0)) ∧
    (∀ (env : Env),
       chat env none none =
         ("I'm having trouble connecting. Please try again.", some {})) := by
  exact ⟨fun _ _ => rfl, fun _ => rfl⟩

/-- C4 counterexample: with an open slot carrying a doctor email, a calendar
insert that succeeds (event `ev1`) and a database UPDATE that then fails,
`book_appointment` returns `success=false` while the created calendar event
remains — refuting "whenever it returns success=false … no external
calendar event created by this call remains". -/
theorem C4_counterexample :
    (book_appointment ⟨true, some "ev1", .ok, false⟩
        ⟨[⟨"Dr. Lee", "Cardiology", some "lee@clinic.example",
           "2025-10-25T13:00:00", "Open", none⟩], []⟩
        "Dr. Lee" ⟨2025, 10, 25, 13, 0, 0, none⟩).success = false ∧
    (book_appointment ⟨true, some "ev1", .ok, false⟩
        ⟨[⟨"Dr. Lee", "Cardiology", some "lee@clinic.example",
           "2025-10-25T13:00:00", "Open", none⟩], []⟩
        "Dr. Lee" ⟨2025, 10, 25, 13, 0, 0, none⟩).world.calendar = ["ev1"] ∧
    (book_appointment ⟨true, some "ev1", .ok, false⟩
        ⟨[⟨"Dr. Lee", "Cardiology", some "lee@clinic.example",
           "2025-10-25T13:00:00", "Open", none⟩], []⟩
        "Dr. Lee" ⟨2025, 10, 25, 13, 0, 0, none⟩).world.db =
      [⟨"Dr. Lee", "Cardiology", some "lee@clinic.example",
        "2025-10-25T13:00:00", "Open", none⟩] := by
  decide

/-- C4 (amended): whenever `book_appointment` returns `success=false` the
schedule table is unchanged, and the external calendar is unchanged as well
except in one case: when the database UPDATE fails after the calendar event
was already created, the created event remains — the code performs no
revert of the calendar step. -/
theorem C4_amended_book_failure_atomicity (env : BEnv) (w : BookingWorld)
    (doctor : String) (adt : PDT)
    (h : (book_appointment env w doctor adt).success = false) :
    (book_appointment env w doctor adt).world.db = w.db ∧
    ((book_appointment env w doctor adt).world.calendar = w.calendar ∨
     (env.dbUpdateOk = false ∧ ∃ id, env.calInsert = some id ∧
        (book_appointment env w doctor adt).world.calendar = w.calendar ++ [id])) := by
  unfold book_appointment at *
  cases hdb : env.dbOk with
  | false => simp [hdb]
  | true =>
    simp only [hdb] at h ⊢
    cases hf : w.db.find? (rowMatch doctor (isoOf adt) "Open") with
    | none => simp [hf]
    | some row =>
      simp only [hf] at h ⊢
      cases hem : (row.email.getD "").isEmpty with
      | true => simp [hem]
      | false =>
        simp only [hem] at h ⊢
        cases hins : env.calInsert with
        | none => simp [hins]
        | some evId =>
          simp only [hins] at h ⊢
          cases hup : env.dbUpdateOk with
          | false => simp [hup, hins]
          | true => simp [hup] at h

/-- C4 witness: the amended theorem applied at a concrete failing call (no
matching open slot), discharging the failure hypothesis by evaluation. -/
theorem C4_amended_book_failure_atomicity_witness :
    (book_appointment ⟨true, none, .ok, true⟩ ⟨[], []⟩ "Dr. Lee"
        ⟨2025, 10, 25, 13, 0, 0, none⟩).world.db = [] ∧
    ((book_appointment ⟨true, none, .ok, true⟩ ⟨[], []⟩ "Dr. Lee"
        ⟨2025, 10, 25, 13, 0, 0, none⟩).world.calendar = [] ∨
     ((⟨true, none, .ok, true⟩ : BEnv).dbUpdateOk = false ∧ ∃ id,
        (⟨true, none, .ok, true⟩ : BEnv).calInsert = some id ∧
        (book_appointment ⟨true, none, .ok, true⟩ ⟨[], []⟩ "Dr. Lee"
            ⟨2025, 10, 25, 13, 0, 0, none⟩).world.calendar = [] ++ [id])) :=
  C4_amended_book_failure_atomicity ⟨true, none, .ok, true⟩ ⟨[], []⟩ "Dr. Lee"
    ⟨2025, 10, 25, 13, 0, 0, none⟩ (by decide)

/-- C10: cancelling an appointment whose row is `Booked` but carries no
calendar reference still succeeds: no calendar-service call is made, the
matching row is set back to `Open` with a NULL reference, and
`success=true` is returned. -/
theorem C10_cancel_without_calendar_reference (env : BEnv) (w : BookingWorld)
    (doctor : String) (adt : PDT) (row : Row)
    (hdb : env.dbOk = true) (hup : env.dbUpdateOk = true)
    (hfind : w.db.find? (rowMatch doctor (isoOf adt) "Booked") = some row)
    (hnoid : (row.calendarEventId.getD "").isEmpty = true) :
    (cancel_appointment_flow env w doctor adt).success = true ∧
    (cancel_appointment_flow env w doctor adt).calCalls = [] ∧
    (cancel_appointment_flow env w doctor adt).world.calendar = w.calendar ∧
    (cancel_appointment_flow env w doctor adt).world.db =
      w.db.map (fun r =>
        if rowKey doctor (isoOf adt) r then
          { r with status := "Open", calendarEventId := none }
        else r) := by
  unfold cancel_appointment_flow cancelDbUpdate
  simp [hdb, hfind, hnoid, hup]

/-- C10 witness: the theorem applied at a concrete `Booked` row with a NULL
calendar reference. -/
theorem C10_cancel_without_calendar_reference_witness :
    (cancel_appointment_flow ⟨true, none, .httpFail, true⟩
        ⟨[⟨"Dr. Lee", "Cardiology", some "lee@clinic.example",
           "2025-10-25T13:00:00", "Booked", none⟩], ["other-ev"]⟩
        "Dr. Lee" ⟨2025, 10, 25, 13, 0, 0, none⟩).success = true ∧
    (cancel_appointment_flow ⟨true, none, .httpFail, true⟩
        ⟨[⟨"Dr. Lee", "Cardiology", some "lee@clinic.example",
           "2025-10-25T13:00:00", "Booked", none⟩], ["other-ev"]⟩
        "Dr. Lee" ⟨2025, 10, 25, 13, 0, 0, none⟩).calCalls = [] ∧
    (cancel_appointment_flow ⟨true, none, .httpFail, true⟩
        ⟨[⟨"Dr. Lee", "Cardiology", some "lee@clinic.example",
           "2025-10-25T13:00:00", "Booked", none⟩], ["other-ev"]⟩
        "Dr. Lee" ⟨2025, 10, 25, 13, 0, 0, none⟩).world.calendar = ["other-ev"] ∧
    (cancel_appointment_flow ⟨true, none, .httpFail, true⟩
        ⟨[⟨"Dr. Lee", "Cardiology", some "lee@clinic.example",
           "2025-10-25T13:00:00", "Booked", none⟩], ["other-ev"]⟩
        "Dr. Lee" ⟨2025, 10, 25, 13, 0, 0, none⟩).world.db =
      [⟨"Dr. Lee", "Cardiology", some "lee@clinic.example",
        "2025-10-25T13:00:00", "Booked", none⟩].map (fun r =>
          if rowKey "Dr. Lee" (isoOf ⟨2025, 10, 25, 13, 0, 0, none⟩) r then
            { r with status := "Open", calendarEventId := none }
          else r) :=
  C10_cancel_without_calendar_reference ⟨true, none, .httpFail, true⟩
    ⟨[⟨"Dr. Lee", "Cardiology", some "lee@clinic.example",
       "2025-10-25T13:00:00", "Booked", none⟩], ["other-ev"]⟩
    "Dr. Lee" ⟨2025, 10, 25, 13, 0, 0, none⟩
    ⟨"Dr. Lee", "Cardiology", some "lee@clinic.example",
     "2025-10-25T13:00:00", "Booked", none⟩
    rfl rfl (by decide) (by decide)

/-- C8: datetime resolution and date-range resolution are total functions of
the parameter value — every exception path of the Python code is caught and
turned into the failure value.  An unrecognized shape (a non-str, non-dict
value, or a dict without the recognized keys) makes `parse_datetime_param`
return `None` and `parse_date_range_param` return `(None, None)`, and an
unparsable string likewise yields the failure values. -/
theorem C8_resolution_never_raises :
    (parse_datetime_param .other = none ∧ parse_date_range_param .other = (none, none)) ∧
    (∀ l, lookupKey l "date_time" = none → lookupKey l "startDate" = none →
       (lookupKey l "date" = none ∨ lookupKey l "time" = none) →
       parse_datetime_param (.dict l) = none) ∧
    (∀ l, lookupKey l "startDate" = none →
       parse_date_range_param (.dict l) = (none, none)) ∧
    (∀ s, fromisoformat (removeZ (stripPlus s)) = none →
       parse_datetime_param (.str s) = none) ∧
    (∀ s, fromisoformat s = none →
       parse_date_range_param (.str s) = (none, none)) := by
  refine ⟨⟨rfl, rfl⟩, ?_, ?_, ?_, ?_⟩
  · intro l h1 h2 h3
    rcases h3 with h3 | h3
    · simp [parse_datetime_param, h1, h2, h3]
    · simp only [parse_datetime_param, h1, h2, h3]
      cases lookupKey l "date" <;> simp
  · intro l h
    simp [parse_date_range_param, h]
  · intro s h
    simp [parse_datetime_param, h]
  · intro s h
    simp [parse_date_range_param, h]

/-- C8 witness: the theorem applied at concrete unrecognized inputs — a dict
without any recognized key and the unparsable string "tomorrow". -/
theorem C8_resolution_never_raises_witness :
    parse_datetime_param (.dict [("foo", "bar")]) = none ∧
    parse_date_range_param (.dict [("foo", "bar")]) = (none, none) ∧
    parse_datetime_param (.str "tomorrow") = none ∧
    parse_date_range_param (.str "tomorrow") = (none, none) :=
  ⟨C8_resolution_never_raises.2.1 [("foo", "bar")] rfl rfl (Or.inl rfl),
   C8_resolution_never_raises.2.2.1 [("foo", "bar")] rfl,
   C8_resolution_never_raises.2.2.2.1 "tomorrow" (by decide),
   C8_resolution_never_raises.2.2.2.2 "tomorrow" (by decide)⟩

/-- C3: a turn is intercepted as a follow-up answer exactly when the session
has a pending `awaiting_info` marker, the parameters supply a (truthy)
doctor or datetime, and the resolved intent is none of the three primary
intent names; and whenever the guard fails, `chat` dispatches the turn on
its resolved intent. -/
theorem C3_followup_interception_iff :
    (∀ (s : Sess) (r : DFResponse),
       followupGuard s r = true ↔
         (s.awaiting_info ≠ none ∧
          (dtTruthyOpt r.dateParam = true ∨ docParamTruthy r.doctorParam = true) ∧
          r.intent ∉ primaryIntentNames)) ∧
    (∀ (env : Env) (store0 : Option Sess) (r : DFResponse),
       followupGuard (store0.getD {}) r = false →
       chat env store0 (some r) = dispatch env (mkTurn store0) r.intent r) := by
  constructor
  · intro s r
    simp only [followupGuard, Bool.and_eq_true, Bool.or_eq_true, Bool.not_eq_true',
      Option.isSome_iff_ne_none]
    rw [show (primaryIntentNames.contains r.intent = false) ↔
          r.intent ∉ primaryIntentNames by
        rw [Bool.eq_false_iff]
        exact not_congr List.elem_iff]
    tauto
  · intro env store0 r h
    simp only [chat, mkTurn]
    simp [h]

/-- C3 witness: the dispatch clause of the theorem applied at a concrete
turn whose guard fails (no pending `awaiting_info`). -/
theorem C3_followup_interception_iff_witness :
    chat env0 (some {}) (some ⟨"hello", "Hi!", none, none⟩) =
      dispatch env0 (mkTurn (some {})) "hello" ⟨"hello", "Hi!", none, none⟩ :=
  C3_followup_interception_iff.2 env0 (some {}) ⟨"hello", "Hi!", none, none⟩ (by decide)

/-- A turn whose resolved intent is exactly "Book Schedule" is never
intercepted, so it goes straight to the book dispatch branch. -/
lemma chat_book_intent (env : Env) (s0 : Sess) (fb : String)
    (dp : Option String) (dt : Option DTParam) :
    chat env (some s0) (some ⟨"Book Schedule", fb, dp, dt⟩) =
      bookBranch env ⟨some s0, s0, true⟩ ⟨"Book Schedule", fb, dp, dt⟩ := by
  have hg : followupGuard s0 ⟨"Book Schedule", fb, dp, dt⟩ = false := by
    simp [followupGuard, primaryIntentNames, List.contains]
  have hl : listIntentNames.contains "Book Schedule" = false := by decide
  have hb : bookIntentNames.contains "Book Schedule" = true := by decide
  simp [chat, mkTurn, hg, dispatch, hl, hb, listIntentNames, bookIntentNames]

/-- A turn whose resolved intent is exactly "Cancel Appointment" is never
intercepted, so it goes straight to the cancel dispatch branch. -/
lemma chat_cancel_intent (env : Env) (s0 : Sess) (fb : String)
    (dp : Option String) (dt : Option DTParam) :
    chat env (some s0) (some ⟨"Cancel Appointment", fb, dp, dt⟩) =
      cancelBranch env ⟨some s0, s0, true⟩ ⟨"Cancel Appointment", fb, dp, dt⟩ := by
  have hg : followupGuard s0 ⟨"Cancel Appointment", fb, dp, dt⟩ = false := by
    simp [followupGuard, primaryIntentNames, List.contains]
  have hl : listIntentNames.contains "Cancel Appointment" = false := by decide
  have hb : bookIntentNames.contains "Cancel Appointment" = false := by decide
  have hc : cancelIntentNames.contains "Cancel Appointment" = true := by decide
  simp [chat, mkTurn, hg, dispatch, hl, hb, hc, listIntentNames, bookIntentNames,
    cancelIntentNames]

/-- C2: dispatching a book intent with no `booking_flow` set (and,
symmetrically, a cancel intent with no `cancel_flow` set) clears the
session first, so whatever session the turn leaves behind carries no field
written by an earlier unrelated flow; when the same flow's flag is already
set, the previously accumulated fields are kept (here: a continuing book
turn that adds no new information preserves every accumulated field). -/
theorem C2_fresh_flow_clears_unrelated_fields :
    (∀ (env : Env) (s0 : Sess) (fb : String) (dp : Option String)
       (dt : Option DTParam) (s' : Sess),
       s0.booking_flow = false →
       (chat env (some s0) (some ⟨"Book Schedule", fb, dp, dt⟩)).2 = some s' →
       s'.cancel_flow = false ∧ s'.cancel_doctor = none ∧
         s'.cancel_datetime = none ∧ s'.schedule_doctor = none) ∧
    (∀ (env : Env) (s0 : Sess) (fb : String) (dp : Option String)
       (dt : Option DTParam) (s' : Sess),
       s0.cancel_flow = false →
       (chat env (some s0) (some ⟨"Cancel Appointment", fb, dp, dt⟩)).2 = some s' →
       s'.booking_flow = false ∧ s'.doctor = none ∧
         s'.datetime = none ∧ s'.schedule_doctor = none) ∧
    (∀ (env : Env) (s0 : Sess) (fb : String) (dp : Option String)
       (dt : Option DTParam) (s' : Sess),
       s0.booking_flow = true → stripDoc dp = none → dtTruthyOpt dt = false →
       s0.datetime = none →
       (chat env (some s0) (some ⟨"Book Schedule", fb, dp, dt⟩)).2 = some s' →
       s'.doctor = s0.doctor ∧ s'.cancel_doctor = s0.cancel_doctor ∧
         s'.cancel_datetime = s0.cancel_datetime ∧ s'.cancel_flow = s0.cancel_flow ∧
         s'.schedule_doctor = s0.schedule_doctor) := by
  refine ⟨?_, ?_, ?_⟩
  · intro env s0 fb dp dt s' hflag hst
    rw [chat_book_intent] at hst
    simp [bookBranch, clearS, updateS, hflag] at hst
    repeat' split at hst
    all_goals try simp at hst
    all_goals (subst hst; simp)
  · intro env s0 fb dp dt s' hflag hst
    rw [chat_cancel_intent] at hst
    simp [cancelBranch, clearS, updateS, hflag] at hst
    repeat' split at hst
    all_goals try simp at hst
    all_goals (subst hst; simp)
  · intro env s0 fb dp dt s' hflag hdoc hdt h0 hst
    rw [chat_book_intent] at hst
    cases dt with
    | none =>
      simp [bookBranch, clearS, updateS, hflag, hdoc, h0] at hst
      repeat' split at hst
      all_goals try simp at hst
      all_goals (subst hst; simp)
    | some dpv =>
      simp only [dtTruthyOpt] at hdt
      simp [bookBranch, clearS, updateS, hflag, hdoc, hdt, h0] at hst
      repeat' split at hst
      all_goals try simp at hst
      all_goals (subst hst; simp)

/-- The doctor visible after the book branch merges the turn's doctor
parameter into the session (parameters do not overwrite with empty values). -/
def mergedDoctor (v : Sess) (r : DFResponse) : Option String :=
  match stripDoc r.doctorParam with
  | some d => some d
  | none => v.doctor

/-- The datetime visible after the book branch merges the turn's truthy
`date-time` parameter into the session. -/
def mergedDatetime (v : Sess) (r : DFResponse) : Option DTParam :=
  match r.dateParam with
  | some dp => if dtTruthy dp then some dp else v.datetime
  | none => v.datetime

/-- The book branch on an attached session with `booking_flow` already set,
a merged doctor and datetime, and slot status `booked`: the
already-booked reply, with the stored datetime cleared and everything else
kept. -/
lemma bookBranch_attached_booked (env : Env) (v : Sess) (r : DFResponse)
    (d : String) (dp : DTParam) (adt : PDT)
    (hbf : v.booking_flow = true)
    (hmd : mergedDoctor v r = some d)
    (hdt : mergedDatetime v r = some dp)
    (hp : parse_datetime_param dp = some adt)
    (hv : env.validate d (dropTz adt) = .booked) :
    bookBranch env ⟨some v, v, true⟩ r =
      ("Sorry, this slot is already booked. " ++ d ++ " is not available at " ++
         fmtIMonBd adt ++ ". Please choose another time.",
       some { v with booking_flow := true,
                     awaiting_info := some "book_schedule_datetime",
                     doctor := some d, datetime := none }) := by
  unfold bookBranch
  cases hsd : stripDoc r.doctorParam with
  | some d0 =>
    simp only [mergedDoctor, hsd, Option.some.injEq] at hmd
    subst hmd
    cases hdp : r.dateParam with
    | some dp0 =>
      cases hdtr : dtTruthy dp0 with
      | true =>
        simp [mergedDatetime, hdp, hdtr] at hdt
        subst hdt
        simp [hbf, hsd, hdp, hdtr, updateS, hp, hv]
      | false =>
        simp [mergedDatetime, hdp, hdtr] at hdt
        simp [hbf, hsd, hdp, hdtr, updateS, hdt, hp, hv]
    | none =>
      simp [mergedDatetime, hdp] at hdt
      simp [hbf, hsd, hdp, updateS, hdt, hp, hv]
  | none =>
    simp only [mergedDoctor, hsd] at hmd
    cases hdp : r.dateParam with
    | some dp0 =>
      cases hdtr : dtTruthy dp0 with
      | true =>
        simp [mergedDatetime, hdp, hdtr] at hdt
        subst hdt
        simp [hbf, hsd, hdp, hdtr, updateS, hmd, hp, hv]
      | false =>
        simp [mergedDatetime, hdp, hdtr] at hdt
        simp [hbf, hsd, hdp, hdtr, updateS, hmd, hdt, hp, hv]
    | none =>
      simp [mergedDatetime, hdp] at hdt
      simp [hbf, hsd, hdp, updateS, hmd, hdt, hp, hv]

/-- The session contents after the follow-up interception for a pending
book question merges the turn's doctor/datetime parameters. -/
def applyBookUpdates (v : Sess) (r : DFResponse) : Sess :=
  let v1 := match stripDoc r.doctorParam with
            | some d => { v with doctor := some d }
            | none => v
  match r.dateParam with
  | some dp => if dtTruthy dp then { v1 with datetime := some dp } else v1
  | none => v1

/-- Interception with a pending book question merges the parameters into the
attached session and re-dispatches as the primary book intent. -/
lemma interception_book_awaiting (env : Env) (s0 : Sess) (r : DFResponse)
    (haw : s0.awaiting_info = some "book_schedule_datetime") :
    interception env ⟨some s0, s0, true⟩ r =
      .cont ⟨some (applyBookUpdates s0 r), applyBookUpdates s0 r, true⟩
        "Book Schedule" := by
  unfold interception applyBookUpdates
  cases hsd : stripDoc r.doctorParam <;> cases hdp : r.dateParam <;>
    simp [haw, hsd, hdp, updateS] <;> split <;> simp [updateS]

/-- The interception merge touches only the `doctor` and `datetime` fields
and commutes with the book branch's own merge. -/
lemma applyBookUpdates_spec (v : Sess) (r : DFResponse) :
    (applyBookUpdates v r).booking_flow = v.booking_flow ∧
    (applyBookUpdates v r).cancel_flow = v.cancel_flow ∧
    (applyBookUpdates v r).cancel_doctor = v.cancel_doctor ∧
    (applyBookUpdates v r).cancel_datetime = v.cancel_datetime ∧
    (applyBookUpdates v r).schedule_doctor = v.schedule_doctor ∧
    mergedDoctor (applyBookUpdates v r) r = mergedDoctor v r ∧
    mergedDatetime (applyBookUpdates v r) r = mergedDatetime v r := by
  unfold applyBookUpdates mergedDoctor mergedDatetime
  cases stripDoc r.doctorParam <;> cases r.dateParam <;> simp <;> split <;> simp

/-- C5: when a book-intent turn has a merged doctor `d` and a merged,
parsable datetime whose slot status resolves to `booked`, the reply
contains "already booked" and "choose another time", the stored datetime is
cleared, and every other session field is unchanged (doctor, booking_flow
and awaiting_info keep their in-flow values; the cancel/list fields keep
the prior session's values). -/
theorem C5_booked_slot_clears_datetime_keeps_rest
    (env : Env) (s0 : Sess) (r : DFResponse) (d : String) (dp : DTParam) (adt : PDT)
    (hin : r.intent ∈ bookIntentNames)
    (hbf : s0.booking_flow = true)
    (haw : s0.awaiting_info = some "book_schedule_datetime")
    (hmd : mergedDoctor s0 r = some d)
    (hdt : mergedDatetime s0 r = some dp)
    (hp : parse_datetime_param dp = some adt)
    (hv : env.validate d (dropTz adt) = .booked) :
    chat env (some s0) (some r) =
      ("Sorry, this slot is already booked. " ++ d ++ " is not available at " ++
         fmtIMonBd adt ++ ". Please choose another time.",
       some { s0 with booking_flow := true,
                      awaiting_info := some "book_schedule_datetime",
                      doctor := some d, datetime := none }) ∧
    (∃ a b, (chat env (some s0) (some r)).1 = a ++ "already booked" ++ b) ∧
    (∃ a b, (chat env (some s0) (some r)).1 = a ++ "choose another time" ++ b) := by
  have hbB : ∀ t, dispatch env t "Book Schedule" r = bookBranch env t r := by
    intro t
    simp [dispatch, listIntentNames, bookIntentNames]
  have key : chat env (some s0) (some r) =
      ("Sorry, this slot is already booked. " ++ d ++ " is not available at " ++
         fmtIMonBd adt ++ ". Please choose another time.",
       some { s0 with booking_flow := true,
                      awaiting_info := some "book_schedule_datetime",
                      doctor := some d, datetime := none }) := by
    cases hg : followupGuard s0 r with
    | false =>
      have hch : chat env (some s0) (some r) =
          dispatch env ⟨some s0, s0, true⟩ r.intent r := by
        simp [chat, mkTurn, hg]
      have hdisp : dispatch env ⟨some s0, s0, true⟩ r.intent r =
          bookBranch env ⟨some s0, s0, true⟩ r := by
        simp only [bookIntentNames, List.mem_cons, List.not_mem_nil, or_false] at hin
        rcases hin with h | h | h <;> rw [h] <;>
          simp [dispatch, listIntentNames, bookIntentNames]
      rw [hch, hdisp, bookBranch_attached_booked env s0 r d dp adt hbf hmd hdt hp hv]
    | true =>
      have hch : chat env (some s0) (some r) =
          (match interception env ⟨some s0, s0, true⟩ r with
           | .done reply st => (reply, st)
           | .cont t' i' => dispatch env t' i' r) := by
        simp [chat, mkTurn, hg]
      rw [hch, interception_book_awaiting env s0 r haw]
      obtain ⟨e1, e2, e3, e4, e5, e6, e7⟩ := applyBookUpdates_spec s0 r
      rw [show (match (StepRes.cont
              ⟨some (applyBookUpdates s0 r), applyBookUpdates s0 r, true⟩
              "Book Schedule" : StepRes) with
           | .done reply st => (reply, st)
           | .cont t' i' => dispatch env t' i' r) =
          dispatch env ⟨some (applyBookUpdates s0 r), applyBookUpdates s0 r, true⟩
            "Book Schedule" r from rfl]
      rw [hbB, bookBranch_attached_booked env (applyBookUpdates s0 r) r d dp adt
        (by rw [e1, hbf]) (by rw [e6, hmd]) (by rw [e7, hdt]) hp hv]
      simp only [Prod.mk.injEq, Option.some.injEq]
      refine ⟨trivial, ?_⟩
      cases h1 : applyBookUpdates s0 r
      cases h2 : s0
      rw [h1] at e2 e3 e4 e5
      rw [h2] at e2 e3 e4 e5
      simp only [Sess.mk.injEq] at e2 e3 e4 e5 ⊢
      simp [e2, e3, e4, e5]
  refine ⟨key, ?_, ?_⟩
  · refine ⟨"Sorry, this slot is ",
      ". " ++ d ++ " is not available at " ++ fmtIMonBd adt ++
        ". Please choose another time.", ?_⟩
    rw [key]
    rw [show ("Sorry, this slot is already booked. " : String) =
        "Sorry, this slot is already booked" ++ ". " from by decide]
    rw [show ("Sorry, this slot is " : String) ++ "already booked" =
        "Sorry, this slot is already booked" from by decide]
    rw [String.append_assoc "Sorry, this slot is already booked" ". " d,
      String.append_assoc "Sorry, this slot is already booked" (". " ++ d)
        " is not available at ",
      String.append_assoc "Sorry, this slot is already booked"
        ((". " ++ d) ++ " is not available at ") (fmtIMonBd adt),
      String.append_assoc "Sorry, this slot is already booked"
        (((". " ++ d) ++ " is not available at ") ++ fmtIMonBd adt)
        ". Please choose another time."]
  · refine ⟨"Sorry, this slot is already booked. " ++ d ++ " is not available at " ++
      fmtIMonBd adt ++ ". Please ", ".", ?_⟩
    rw [key]
    rw [show (". Please choose another time." : String) =
        (". Please " ++ "choose another time") ++ "." from by decide]
    rw [String.append_assoc ". Please " "choose another time" ".",
      String.append_assoc
        ("Sorry, this slot is already booked. " ++ d ++ " is not available at " ++
          fmtIMonBd adt ++ ". Please ") "choose another time" ".",
      String.append_assoc
        ("Sorry, this slot is already booked. " ++ d ++ " is not available at " ++
          fmtIMonBd adt) ". Please " ("choose another time" ++ ".")]

/-- C5 witness: the theorem applied at the spec's concrete scenario — the
follow-up "2025-10-25T13:00:00" in a booking flow holding doctor "Dr. Lee",
with the slot reading `booked`. -/
theorem C5_booked_slot_clears_datetime_keeps_rest_witness :
    chat env0
        (some { booking_flow := true, awaiting_info := some "book_schedule_datetime",
                doctor := some "Dr. Lee" })
        (some ⟨"Book Schedule - provide datetime", "", none,
               some (.str "2025-10-25T13:00:00")⟩) =
      ("Sorry, this slot is already booked. " ++ "Dr. Lee" ++ " is not available at " ++
         fmtIMonBd ⟨2025, 10, 25, 13, 0, 0, none⟩ ++ ". Please choose another time.",
       some { booking_flow := true, awaiting_info := some "book_schedule_datetime",
              doctor := some "Dr. Lee", datetime := none }) :=
  (C5_booked_slot_clears_datetime_keeps_rest env0
    { booking_flow := true, awaiting_info := some "book_schedule_datetime",
      doctor := some "Dr. Lee" }
    ⟨"Book Schedule - provide datetime", "", none, some (.str "2025-10-25T13:00:00")⟩
    "Dr. Lee" (.str "2025-10-25T13:00:00") ⟨2025, 10, 25, 13, 0, 0, none⟩
    (by decide) rfl rfl rfl rfl (by decide) rfl).1

/-- C2 witness: the first clause of the theorem applied at a concrete fresh
book turn over a session holding leftover cancel-flow fields. -/
theorem C2_fresh_flow_clears_unrelated_fields_witness :
    ({ booking_flow := true, awaiting_info := some "book_schedule_datetime",
       doctor := some "Dr. Lee" } : Sess).cancel_flow = false ∧
    ({ booking_flow := true, awaiting_info := some "book_schedule_datetime",
       doctor := some "Dr. Lee" } : Sess).cancel_doctor = none ∧
    ({ booking_flow := true, awaiting_info := some "book_schedule_datetime",
       doctor := some "Dr. Lee" } : Sess).cancel_datetime = none ∧
    ({ booking_flow := true, awaiting_info := some "book_schedule_datetime",
       doctor := some "Dr. Lee" } : Sess).schedule_doctor = none :=
  C2_fresh_flow_clears_unrelated_fields.1 env0
    { cancel_flow := true, cancel_doctor := some "Dr. X" } "fb" (some "Dr. Lee") none
    { booking_flow := true, awaiting_info := some "book_schedule_datetime",
      doctor := some "Dr. Lee" } rfl rfl

end LyRise

example : LyRise.parse_datetime_param (.str "2025-10-25T13:00:00") =
    some ⟨2025, 10, 25, 13, 0, 0, none⟩ := by decide

example : LyRise.parse_datetime_param (.str "2025-10-25T13:00:00+02:00") =
    some ⟨2025, 10, 25, 13, 0, 0, none⟩ := by decide

example : LyRise.parse_datetime_param (.str "2025-10-25T13:00:00Z") =
    some ⟨2025, 10, 25, 13, 0, 0, none⟩ := by decide

example : LyRise.parse_datetime_param (.str "2025-10-25T13:00:00-05:00") =
    some ⟨2025, 10, 25, 13, 0, 0, some (-300)⟩ := by decide

example : LyRise.parse_datetime_param (.str "tomorrow") = none := by decide

example : LyRise.parse_date_range_param (.str "2025-10-25") =
    (some ⟨2025, 10, 25, 0, 0, 0, some 120⟩, some ⟨2025, 10, 26, 0, 0, 0, some 120⟩) := by
  decide

example : LyRise.parse_date_range_param
      (.dict [("startDate", "2025-10-25"), ("endDate", "2025-10-25")]) =
    (some ⟨2025, 10, 25, 0, 0, 0, some 120⟩, some ⟨2025, 10, 26, 0, 0, 0, some 120⟩) := by
  decide

example : LyRise.parse_date_range_param
      (.dict [("startDate", "2025-10-25"), ("endDate", "2025-10-20")]) =
    (some ⟨2025, 10, 25, 0, 0, 0, some 120⟩, some ⟨2025, 10, 20, 0, 0, 0, some 120⟩) := by
  decide

